import Mathlib

/-!
# Verification of the rhejos text-metrics and scoring core

Shallow embedding of the text-metrics engine: the tokenizer/segmenter,
syllable estimator, readability formulas and reading-level lookup of
`text_analyzer.py`, the quality-standards comparator of the same file,
the six bias scanners and score aggregation of `bias_detector.py`, and
the AI-likelihood scorer of `ai_humanizer.py`.

Modelling conventions:
* Python strings are Lean `String`s; character classes (`str.isalnum`,
  `str.lower`, whitespace, the regex class `\w`) are modelled over ASCII
  code points, which covers every lexicon entry and every concrete input
  used below.
* Python `float` arithmetic is modelled with `ℚ` (the formulas only use
  `+ - * /` and comparisons on decimal literals); Python `int` is `ℤ`/`ℕ`.
* Dictionaries iterated in insertion order are modelled as ordered lists.
* Display-only rounding (`round(x, 3)` etc.) and report fields that no
  function reads back (`language_complexity`, `recommendations`,
  `most_common_words`) are not modelled; feedback/strength message
  strings built by `f`-string interpolation are modelled as structured
  items carrying the interpolated values.
-/

namespace Rhejos

/-! ## Character classes (ASCII model of Python predicates) -/

/-- ASCII whitespace, the characters `str.split()` and `str.strip()`
split on (space, tab, newline, vertical tab, form feed, carriage return). -/
def isWsCh (c : Char) : Bool :=
  c.toNat = 32 || c.toNat = 9 || c.toNat = 10 || c.toNat = 11 ||
  c.toNat = 12 || c.toNat = 13

/-- ASCII model of Python `str.isalnum` for a single character. -/
def isAlnumCh (c : Char) : Bool :=
  (65 ≤ c.toNat && c.toNat ≤ 90) || (97 ≤ c.toNat && c.toNat ≤ 122) ||
  (48 ≤ c.toNat && c.toNat ≤ 57)

/-- ASCII model of the regex class `\w` (alphanumeric or underscore). -/
def isWordCh (c : Char) : Bool :=
  isAlnumCh c || c.toNat = 95

/-- ASCII model of Python `str.lower` on one character. -/
def lowerChar (c : Char) : Char :=
  if 65 ≤ c.toNat ∧ c.toNat ≤ 90 then Char.ofNat (c.toNat + 32) else c

/-- ASCII model of Python `str.lower`. -/
def strLower (s : String) : String := ⟨s.data.map lowerChar⟩

/-- The sentence-ending characters of the regex `[.!?]+`. -/
def isSentEnd (c : Char) : Bool :=
  c.toNat = 46 || c.toNat = 33 || c.toNat = 63

/-- The vowel set `aeiouy` of `_count_syllables` (on lowered characters). -/
def isVowelCh (c : Char) : Bool :=
  c.toNat = 97 || c.toNat = 101 || c.toNat = 105 || c.toNat = 111 ||
  c.toNat = 117 || c.toNat = 121

/-! ## Splitting

`splitRuns p cs acc` splits `cs` at runs of separator characters
(those satisfying `p`), dropping empty fragments; `acc` is the reversed
fragment currently being built.  With `p := isWsCh` this is Python
`str.split()`; with `p := isSentEnd` it yields the non-empty fragments of
`re.split(r'[.!?]+', ·)` (whose empty fragments every caller filters out). -/

def splitRuns (p : Char → Bool) : List Char → List Char → List (List Char)
  | [], acc => if acc.isEmpty then [] else [acc.reverse]
  | c :: cs, acc =>
    if p c then
      if acc.isEmpty then splitRuns p cs []
      else acc.reverse :: splitRuns p cs []
    else splitRuns p cs (c :: acc)

/-- Python `text.split()`: whitespace tokens of a string. -/
def pySplit (s : String) : List String :=
  (splitRuns isWsCh s.data []).map (fun l => ⟨l⟩)

/-- Python `s.strip()`: trim whitespace at both ends of a fragment. -/
def pyStrip (l : List Char) : List Char :=
  ((l.dropWhile isWsCh).reverse.dropWhile isWsCh).reverse

/-- Substring test, Python's `needle in hay` on strings. -/
def listInfix (needle hay : List Char) : Bool :=
  (List.range (hay.length + 1)).any (fun i => needle.isPrefixOf (hay.drop i))

/-- `strContains hay needle` is Python `needle in hay`. -/
def strContains (hay needle : String) : Bool := listInfix needle.data hay.data

/-! ## `TextAnalyzer` counting (`text_analyzer.py`) -/

/-- `TextAnalyzer._count_words`: whitespace tokens containing at least one
alphanumeric character. -/
def countWords (text : String) : ℕ :=
  ((pySplit text).filter (fun w => w.data.any isAlnumCh)).length

/-- `TextAnalyzer._count_sentences`: fragments of `re.split(r'[.!?]+', text)`
that are non-empty after stripping. -/
def countSentences (text : String) : ℕ :=
  ((splitRuns isSentEnd text.data []).filter
    (fun l => l.any (fun c => !isWsCh c))).length

/-- `TextAnalyzer._count_unique_words`: lower-case, split on whitespace,
delete the characters of the regex class `[^\w\s]` from each token (on a
token this keeps exactly the `\w` characters), count distinct results. -/
def uniqueWords (text : String) : ℕ :=
  (((pySplit (strLower text)).map
    (fun w => (⟨w.data.filter isWordCh⟩ : String))).dedup).length

/-- The `vocabulary_diversity` ratio of `TextAnalyzer.analyze_text`
(line 80): `unique_words / word_count if word_count > 0 else 0`. -/
def vocabularyDiversity (text : String) : ℚ :=
  if 0 < countWords text then (uniqueWords text : ℚ) / (countWords text : ℚ)
  else 0

/-! ## Syllable estimation (`TextAnalyzer._count_syllables`) -/

/-- The per-character loop of `_count_syllables`: counts characters that
are vowels while the previous character was not. -/
def syllAux : List Char → Bool → ℕ
  | [], _ => 0
  | c :: cs, prev =>
    (if isVowelCh c && !prev then 1 else 0) + syllAux cs (isVowelCh c)

/-- `TextAnalyzer._count_syllables`: lower-case, count transitions into a
vowel group, subtract one for a trailing `'e'`, and replace a result of
exactly `0` by `1` (Python compares `== 0`, not `≤ 0`). -/
def countSyllables (word : String) : ℤ :=
  let w := (strLower word).data
  let n : ℤ := syllAux w false
  let n2 : ℤ := if w.getLast? = some (Char.ofNat 101) then n - 1 else n
  if n2 = 0 then 1 else n2

/-- The `total_syllables` sum of both Flesch calculators: per-token
syllable estimates over ALL whitespace tokens (`text.split()`), not over
the alnum-filtered word list of `_count_words`. -/
def totalSyllables (text : String) : ℤ :=
  ((pySplit text).map countSyllables).sum

/-- `TextAnalyzer._calculate_flesch_reading_ease`. -/
def fleschReadingEase (text : String) : ℚ :=
  let W := countWords text
  let S := countSentences text
  if W = 0 ∨ S = 0 then 0
  else
    max 0 (min 100 (206835/1000 - 1015/1000 * ((W : ℚ) / (S : ℚ))
      - 846/10 * ((totalSyllables text : ℚ) / (W : ℚ))))

/-- `TextAnalyzer._calculate_flesch_kincaid_grade`. -/
def fleschKincaidGrade (text : String) : ℚ :=
  let W := countWords text
  let S := countSentences text
  if W = 0 ∨ S = 0 then 0
  else
    max 0 (39/100 * ((W : ℚ) / (S : ℚ))
      + 118/10 * ((totalSyllables text : ℚ) / (W : ℚ)) - 1559/100)

/-! ## Reading-level lookup (`TextAnalyzer._get_reading_level`) -/

/-- `reading_level_standards`, in dict insertion order; `none` models the
`float('inf')` upper bound of the `graduate` band. -/
def readingLevelStandards : List (String × ℚ × Option ℚ) :=
  [("elementary", 0, some 5),
   ("middle_school", 6, some 8),
   ("high_school", 9, some 12),
   ("college", 13, some 16),
   ("graduate", 17, none)]

/-- The containment test `min_grade <= grade <= max_grade` of
`_get_reading_level`. -/
def gradeInBand (grade lo : ℚ) (hi : Option ℚ) : Bool :=
  decide (lo ≤ grade) &&
  (match hi with
   | some h => decide (grade ≤ h)
   | none => true)

/-- Python `str.title()` on ASCII: uppercase each letter that follows a
non-letter, lowercase the rest. -/
def titleAux : List Char → Bool → List Char
  | [], _ => []
  | c :: cs, prevAlpha =>
    (if 97 ≤ c.toNat ∧ c.toNat ≤ 122 then
       (if prevAlpha then c else Char.ofNat (c.toNat - 32))
     else if 65 ≤ c.toNat ∧ c.toNat ≤ 90 then
       (if prevAlpha then Char.ofNat (c.toNat + 32) else c)
     else c)
    :: titleAux cs (isAlnumCh c)

/-- `level.replace('_', ' ').title()` applied to a band key. -/
def bandDisplay (s : String) : String :=
  ⟨titleAux (s.data.map (fun c => if c.toNat = 95 then Char.ofNat 32 else c))
    false⟩

/-- `TextAnalyzer._get_reading_level`: first band whose inclusive range
contains the grade wins; no match gives `"Unknown"`. -/
def getReadingLevel (grade : ℚ) : String :=
  match readingLevelStandards.find? (fun e => gradeInBand grade e.2.1 e.2.2) with
  | some e => bandDisplay e.1
  | none => "Unknown"

/-! ## Quality-standards comparator (`TextAnalyzer._compare_to_standards`) -/

/-- One genre's row of `quality_standards`. -/
structure QualityStandard where
  minWords : ℕ
  idealWords : ℕ × ℕ
  maxWords : ℕ
  avgSentenceLen : ℚ × ℚ
  vocabDiversity : ℚ
  paragraphRange : ℕ × ℕ
deriving DecidableEq

def essayStandard : QualityStandard :=
  ⟨300, (500, 1500), 3000, (15, 20), 1/2, (3, 10)⟩

def coverLetterStandard : QualityStandard :=
  ⟨200, (250, 400), 500, (12, 18), 55/100, (3, 5)⟩

def resumeStandard : QualityStandard :=
  ⟨200, (300, 600), 800, (10, 15), 6/10, (4, 8)⟩

def letterStandard : QualityStandard :=
  ⟨150, (200, 500), 750, (12, 20), 1/2, (3, 6)⟩

/-- The genre lookup of `_compare_to_standards` lines 263-266: an
unrecognized `text_type` is replaced by `'essay'` before indexing
`quality_standards`. -/
def lookupStandards (textType : String) : QualityStandard :=
  if textType = "essay" then essayStandard
  else if textType = "cover_letter" then coverLetterStandard
  else if textType = "resume" then resumeStandard
  else if textType = "letter" then letterStandard
  else essayStandard

/-- Structured model of the feedback strings of `_compare_to_standards`,
carrying the interpolated values of each `f`-string. -/
inductive FeedbackItem where
  | tooShort (wordCount minWords : ℕ)
  | tooLong (wordCount maxWords : ℕ)
  | outsideIdealWords (idealLo idealHi : ℕ)
  | sentencesTooShort (avg lo hi : ℚ)
  | sentencesTooLong (avg lo hi : ℚ)
  | lowVocabularyDiversity (vd target : ℚ)
  | tooFewParagraphs (count lo hi : ℕ)
  | consolidateParagraphs (count lo hi : ℕ)
deriving DecidableEq

/-- Structured model of the strength strings of `_compare_to_standards`. -/
inductive StrengthItem where
  | excellentWordCount (wordCount : ℕ)
  | goodSentenceLength
  | excellentVocabularyDiversity
  | wellStructuredParagraphs
deriving DecidableEq

/-- The dictionary returned by `_compare_to_standards`. -/
structure ScoreReport where
  score : ℤ
  assessment : String
  feedback : List FeedbackItem
  strengths : List StrengthItem
deriving DecidableEq

/-- The word-count `if/elif` chain, lines 271-285: penalty, feedback and
strength contributions. -/
def checkWordCount (std : QualityStandard) (wordCount : ℕ) :
    ℤ × List FeedbackItem × List StrengthItem :=
  if wordCount < std.minWords then
    (20, [.tooShort wordCount std.minWords], [])
  else if wordCount > std.maxWords then
    (10, [.tooLong wordCount std.maxWords], [])
  else if std.idealWords.1 ≤ wordCount ∧ wordCount ≤ std.idealWords.2 then
    (0, [], [.excellentWordCount wordCount])
  else
    (5, [.outsideIdealWords std.idealWords.1 std.idealWords.2], [])

/-- The sentence-length `if/elif` chain, lines 287-298. -/
def checkSentenceLength (std : QualityStandard) (avg : ℚ) :
    ℤ × List FeedbackItem × List StrengthItem :=
  let lo := std.avgSentenceLen.1
  let hi := std.avgSentenceLen.2
  if avg < lo - 5 then (10, [.sentencesTooShort avg lo hi], [])
  else if avg > hi + 10 then (15, [.sentencesTooLong avg lo hi], [])
  else if lo ≤ avg ∧ avg ≤ hi then (0, [], [.goodSentenceLength])
  else (0, [], [])

/-- The vocabulary-diversity `if/elif` chain, lines 300-307. -/
def checkVocabDiversity (std : QualityStandard) (vd : ℚ) :
    ℤ × List FeedbackItem × List StrengthItem :=
  if vd < std.vocabDiversity - 1/10 then
    (15, [.lowVocabularyDiversity vd std.vocabDiversity], [])
  else if vd ≥ std.vocabDiversity then
    (0, [], [.excellentVocabularyDiversity])
  else (0, [], [])

/-- The paragraph-count `if/elif` chain, lines 309-320; the upper test is
`paragraph_count > ideal_max * 1.5`. -/
def checkParagraphCount (std : QualityStandard) (count : ℕ) :
    ℤ × List FeedbackItem × List StrengthItem :=
  let lo := std.paragraphRange.1
  let hi := std.paragraphRange.2
  if count < lo then (10, [.tooFewParagraphs count lo hi], [])
  else if (count : ℚ) > (hi : ℚ) * (3/2) then
    (5, [.consolidateParagraphs count lo hi], [])
  else if lo ≤ count ∧ count ≤ hi then (0, [], [.wellStructuredParagraphs])
  else (0, [], [])

/-- The overall-assessment thresholds, lines 326-333. -/
def assessmentOf (score : ℤ) : String :=
  if score ≥ 90 then "Excellent - Meets high-quality standards"
  else if score ≥ 75 then "Good - Minor improvements recommended"
  else if score ≥ 60 then "Acceptable - Several areas for improvement"
  else "Needs work - Significant improvements needed"

/-- `TextAnalyzer._compare_to_standards`.  `sentenceCount` is accepted and
ignored exactly as in the source (the parameter is never read).  The four
checks subtract independently from a starting score of 100 and the result
is floored at 0 at the end (line 323). -/
def compareToStandards (wordCount sentenceCount paragraphCount : ℕ)
    (avgSentenceLength vocabDiversity : ℚ) (textType : String) : ScoreReport :=
  let std := lookupStandards textType
  let w := checkWordCount std wordCount
  let s := checkSentenceLength std avgSentenceLength
  let v := checkVocabDiversity std vocabDiversity
  let p := checkParagraphCount std paragraphCount
  let score : ℤ := max 0 (100 - w.1 - s.1 - v.1 - p.1)
  { score := score
    assessment := assessmentOf score
    feedback := w.2.1 ++ s.2.1 ++ v.2.1 ++ p.2.1
    strengths := w.2.2 ++ s.2.2 ++ v.2.2 ++ p.2.2 }

/-! ## Bias detector (`bias_detector.py`)

`language_complexity` and `recommendations` are derived output fields that
no score computation reads back; they are not modelled.  The `details`
f-string of the pronoun-imbalance issue is modelled as the pair of counts
it interpolates. -/

def aposChar : Char := Char.ofNat 39

def aposStr : String := ⟨[aposChar]⟩

/-- One entry of a scanner's issue list. -/
structure Issue where
  term : String
  category : Option String
  leaning : Option String
  severity : String
  details : Option (ℕ × ℕ)
deriving DecidableEq

/-- The `{score, issues}` dictionary each `_check_*` method returns. -/
structure CategoryResult where
  score : ℕ
  issues : List Issue
deriving DecidableEq

/-- `gender_biased_terms`, flattened in dict/list order as
`(category, term)` pairs. -/
def genderBiasedTerms : List (String × String) :=
  [("male", "mankind"), ("male", "manpower"), ("male", "chairman"),
   ("male", "policeman"), ("male", "fireman"), ("male", "businessman"),
   ("male", "spokesman"), ("male", "workman"), ("male", "salesman"),
   ("male", "mailman"), ("male", "he/him (generic)"),
   ("male", "guys (generic)"),
   ("female", "emotional"), ("female", "bossy"), ("female", "feisty"),
   ("female", "high-maintenance"), ("female", "shrill"),
   ("female", "hysterical"), ("female", "hormonal"), ("female", "sassy"),
   ("stereotypical", "lady doctor"), ("stereotypical", "male nurse"),
   ("stereotypical", "female engineer"), ("stereotypical", "working mother"),
   ("stereotypical", "career woman")]

def racialBiasTerms : List String :=
  ["exotic", "articulate (in racial context)", "urban", "inner-city",
   "ethnic-sounding name", "well-spoken (in racial context)", "minority",
   "diverse (as euphemism)", "ghetto", "thug"]

def ageBiasTerms : List String :=
  ["young blood", "old-timer", "overqualified", "digital native",
   "senior moment", "past their prime", "fresh perspective",
   "too experienced", "not enough experience"]

/-- `political_bias_words`, flattened in dict/list order as
`(leaning, term)` pairs. -/
def politicalBiasWords : List (String × String) :=
  [("left-leaning", "fascist"), ("left-leaning", "nazi"),
   ("left-leaning", "right-wing extremist"),
   ("left-leaning", "conservative bias"),
   ("right-leaning", "communist"), ("right-leaning", "socialist"),
   ("right-leaning", "left-wing radical"), ("right-leaning", "liberal bias"),
   ("polarizing", "fake news"), ("polarizing", "brainwashed"),
   ("polarizing", "sheep"), ("polarizing", "woke"),
   ("polarizing", "snowflake")]

def abilityBiasTerms : List String :=
  ["handicapped", "crippled", "suffers from", "victim of",
   "confined to wheelchair", "special needs", "differently abled",
   "mentally challenged", "crazy", "insane", "lame", "dumb", "blind to",
   "deaf to"]

def socioeconomicBiasTerms : List String :=
  ["poor", "disadvantaged", "underprivileged", "low-class", "trailer trash",
   "white trash", "welfare queen", "born with silver spoon"]

/-- `term.split('(')[0].strip().lower()`: drop a parenthetical annotation,
trim, lower-case. -/
def stripParenLower (term : String) : String :=
  ⟨(pyStrip (term.data.takeWhile (fun c => c.toNat != 40))).map lowerChar⟩

/-- Whole-word match of `needle` at position `i` of `hay`, the `\bw\b`
pattern of the pronoun regexes (`\b` separates `\w` from non-`\w`). -/
def wordMatchAt (hay : List Char) (i : ℕ) (needle : List Char) : Bool :=
  needle.isPrefixOf (hay.drop i)
  && (decide (i = 0) || !isWordCh (hay.getD (i - 1) (Char.ofNat 32)))
  && !isWordCh (hay.getD (i + needle.length) (Char.ofNat 32))

/-- Number of whole-word occurrences of any of `words` in `hay`, the value
of `len(re.findall(r'\bw1\b|\bw2\b|\bw3\b', hay))` (the alternatives are
disjoint whole words, so matches never overlap). -/
def countWholeWords (hay : String) (words : List String) : ℕ :=
  ((List.range hay.data.length).filter
    (fun i => words.any (fun w => wordMatchAt hay.data i w.data))).length

/-- `BiasDetector._check_gender_bias` (its `text` parameter is unused in
the source; only `text_lower` is read). -/
def checkGenderBias (textLower : String) : CategoryResult :=
  let lexIssues := (genderBiasedTerms.filter
      (fun ct => strContains textLower (stripParenLower ct.2))).map
    (fun ct => Issue.mk ct.2 (some ct.1) none "medium" none)
  let he := countWholeWords textLower ["he", "him", "his"]
  let she := countWholeWords textLower ["she", "her", "hers"]
  let issues :=
    if he > she * 2 ∨ she > he * 2 then
      lexIssues ++
        [Issue.mk "Pronoun imbalance" (some "pronoun_bias") none "low"
          (some (he, she))]
    else lexIssues
  ⟨issues.length, issues⟩

/-- `BiasDetector._check_racial_bias` (parenthetical-stripped matching). -/
def checkRacialBias (textLower : String) : CategoryResult :=
  let issues := (racialBiasTerms.filter
      (fun t => strContains textLower (stripParenLower t))).map
    (fun t => Issue.mk t none none "high" none)
  ⟨issues.length, issues⟩

/-- `BiasDetector._check_age_bias` (plain `term.lower() in text_lower`). -/
def checkAgeBias (textLower : String) : CategoryResult :=
  let issues := (ageBiasTerms.filter
      (fun t => strContains textLower (strLower t))).map
    (fun t => Issue.mk t none none "medium" none)
  ⟨issues.length, issues⟩

/-- `BiasDetector._check_political_bias`. -/
def checkPoliticalBias (textLower : String) : CategoryResult :=
  let issues := (politicalBiasWords.filter
      (fun lt => strContains textLower (strLower lt.2))).map
    (fun lt => Issue.mk lt.2 none (some lt.1) "high" none)
  ⟨issues.length, issues⟩

/-- `BiasDetector._check_ability_bias`. -/
def checkAbilityBias (textLower : String) : CategoryResult :=
  let issues := (abilityBiasTerms.filter
      (fun t => strContains textLower (strLower t))).map
    (fun t => Issue.mk t none none "medium" none)
  ⟨issues.length, issues⟩

/-- `BiasDetector._check_socioeconomic_bias`. -/
def checkSocioeconomicBias (textLower : String) : CategoryResult :=
  let issues := (socioeconomicBiasTerms.filter
      (fun t => strContains textLower (strLower t))).map
    (fun t => Issue.mk t none none "high" none)
  ⟨issues.length, issues⟩

/-- The observable fields of the dictionary `detect_bias` returns. -/
structure BiasResults where
  genderBias : CategoryResult
  racialBias : CategoryResult
  ageBias : CategoryResult
  politicalBias : CategoryResult
  abilityBias : CategoryResult
  socioeconomicBias : CategoryResult
  overallBiasScore : ℚ
  inclusivityScore : ℚ
deriving DecidableEq

/-- The `bias_count` sum of `detect_bias`, lines 79-86: issue counts of
the six scanners on the lowered text. -/
def biasIssueCount (text : String) : ℕ :=
  (checkGenderBias (strLower text)).issues.length +
  (checkRacialBias (strLower text)).issues.length +
  (checkAgeBias (strLower text)).issues.length +
  (checkPoliticalBias (strLower text)).issues.length +
  (checkAbilityBias (strLower text)).issues.length +
  (checkSocioeconomicBias (strLower text)).issues.length

/-- The `overall_bias_score` normalization of `detect_bias`, lines 88-91:
`min(100, bias_count / len(text.split()) * 1000)` when the text has
tokens, else the initial `0`. -/
def overallBiasScore (text : String) : ℚ :=
  if 0 < (pySplit text).length then
    min 100 ((biasIssueCount text : ℚ) / ((pySplit text).length : ℚ) * 1000)
  else 0

/-- `inclusivity_score = max(0, 100 - overall_bias_score)`, line 93. -/
def inclusivityScore (text : String) : ℚ :=
  max 0 (100 - overallBiasScore text)

/-- `BiasDetector.detect_bias`: run the six scanners on the lowered text
and aggregate the scores. -/
def detectBias (text : String) : BiasResults :=
  { genderBias := checkGenderBias (strLower text)
    racialBias := checkRacialBias (strLower text)
    ageBias := checkAgeBias (strLower text)
    politicalBias := checkPoliticalBias (strLower text)
    abilityBias := checkAbilityBias (strLower text)
    socioeconomicBias := checkSocioeconomicBias (strLower text)
    overallBiasScore := overallBiasScore text
    inclusivityScore := inclusivityScore text }

/-! ## AI-likelihood analyzer (`ai_humanizer.py`, `analyze_ai_likelihood`) -/

/-- The keys of `ai_phrases`, in dict insertion order. -/
def aiPhrases : List String :=
  ["As an AI language model", "I apologize, but",
   "It" ++ aposStr ++ "s important to note that",
   "It is worth noting that", "In conclusion", "Furthermore", "Moreover",
   "Nevertheless", "Therefore", "However", "Additionally", "Subsequently",
   "Consequently", "In order to", "Due to the fact that",
   "In the event that", "For the purpose of", "With regard to",
   "In terms of", "It should be noted that", "One must consider",
   "It is essential to", "It is crucial to"]

/-- The keys of `formal_words`. -/
def formalWords : List String :=
  ["utilize", "endeavor", "facilitate", "implement", "ascertain",
   "commence", "terminate", "obtain", "purchase", "provide", "assist",
   "require", "sufficient", "numerous", "prior to", "subsequent to",
   "concerning", "regarding", "aforementioned", "heretofore", "in lieu of"]

/-- `ai_symbols`. -/
def aiSymbols : List String :=
  ["※", "★", "☆", "●", "○", "■", "□", "▪", "▫",
   "✓", "✔", "✕", "✖", "✗", "✘",
   "➤", "➔", "➜", "➡", "⇒", "⟹",
   "【", "】", "『", "』", "「", "」"]

/-- Number of `ai_phrases` keys with `phrase.lower() in text.lower()`. -/
def aiPhraseCount (text : String) : ℕ :=
  (aiPhrases.filter (fun p => strContains (strLower text) (strLower p))).length

/-- Number of `ai_symbols` present in the raw text. -/
def aiSymbolCount (text : String) : ℕ :=
  (aiSymbols.filter (fun s => strContains text s)).length

/-- The symbol component: `count * 10` added only when `count > 0`. -/
def symbolScore (text : String) : ℕ :=
  if 0 < aiSymbolCount text then 10 * aiSymbolCount text else 0

/-- Number of `formal_words` keys with `word in text.lower()`. -/
def formalWordCount (text : String) : ℕ :=
  (formalWords.filter (fun w => strContains (strLower text) w)).length

/-- The formality component of `analyze_ai_likelihood`, lines 325-329:
`score += formal_word_count * 5` guarded by `formal_word_count > 3`. -/
def formalityScore (text : String) : ℕ :=
  if 3 < formalWordCount text then 5 * formalWordCount text else 0

/-- The missing-contractions component: +20 when the text has more than 50
whitespace tokens and none of them contains an apostrophe. -/
def contractionScore (text : String) : ℕ :=
  if 50 < (pySplit text).length ∧
      ((pySplit text).filter (fun w => w.data.contains aposChar)).length = 0
  then 20 else 0

/-- The non-blank sentence fragments of `re.split(r'[.!?]+', text)`, as
used by the uniformity and repetition checks. -/
def aiSentences (text : String) : List (List Char) :=
  (splitRuns isSentEnd text.data []).filter (fun l => l.any (fun c => !isWsCh c))

/-- The total of `len(s.split())` over the sentences, the numerator of the
`avg_length` mean. -/
def sentenceTokenSum (text : String) : ℕ :=
  ((aiSentences text).map (fun l => (splitRuns isWsCh l []).length)).sum

/-- The sentence-uniformity component: +15 when the average token count
per sentence exceeds 25 (`if sentences:` guards the division). -/
def avgSentenceLenScore (text : String) : ℕ :=
  if (aiSentences text).length = 0 then 0
  else if 25 < (sentenceTokenSum text : ℚ) / ((aiSentences text).length : ℚ)
  then 15 else 0

/-- First token of each sentence that has one
(`s.split()[0] for s in sentences if s.split()`). -/
def sentenceStarts (text : String) : List (List Char) :=
  (aiSentences text).filterMap (fun l => (splitRuns isWsCh l []).head?)

/-- The repetitive-structure component: +10 when some sentence-starting
token repeats and there are more than 3 starts. -/
def repetitionScore (text : String) : ℕ :=
  let st := sentenceStarts text
  if st.length ≠ st.dedup.length ∧ 3 < st.length then 10 else 0

/-- The accumulated `score` of `analyze_ai_likelihood` before clamping:
the six additive components in source order. -/
def aiScore (text : String) : ℕ :=
  15 * aiPhraseCount text + symbolScore text + formalityScore text +
    contractionScore text + avgSentenceLenScore text + repetitionScore text

/-- `ai_probability = min(100, score)`. -/
def aiProbability (text : String) : ℕ := min 100 (aiScore text)

/-! ## Concrete inputs used by the theorems below -/

/-- The bias-scanner example sentence (its apostrophe written via
`aposStr`). -/
def claimSixText : String :=
  "The chairman discussed mankind" ++ aposStr ++ "s progress"

/-- A text with exactly four `formal_words` hits and nothing else the
AI-likelihood scorer reacts to. -/
def fourFormalText : String := "utilize endeavor facilitate implement"

/-! ## Supporting lemmas -/

theorem charToNatOfNat {n : ℕ} (h : n < 55296) : (Char.ofNat n).toNat = n := by
  unfold Char.ofNat
  split
  · rfl
  · next h2 => exact absurd (Or.inl h) h2

theorem isWsCh_lowerChar (c : Char) : isWsCh (lowerChar c) = isWsCh c := by
  unfold lowerChar
  split
  · next h =>
    have hto : (Char.ofNat (c.toNat + 32)).toNat = c.toNat + 32 :=
      charToNatOfNat (by omega)
    have h1 : isWsCh (Char.ofNat (c.toNat + 32)) = false := by
      simp only [isWsCh, hto, Bool.or_eq_false_iff, decide_eq_false_iff_not]
      omega
    have h2 : isWsCh c = false := by
      simp only [isWsCh, Bool.or_eq_false_iff, decide_eq_false_iff_not]
      omega
    rw [h1, h2]
  · rfl

theorem splitRuns_eq_nil (p : Char → Bool) :
    ∀ (cs acc : List Char),
      splitRuns p cs acc = [] ↔ (acc = [] ∧ ∀ c ∈ cs, p c = true)
  | [], acc => by
    cases acc <;> simp [splitRuns]
  | c :: cs, acc => by
    cases h : p c with
    | false =>
      have e : splitRuns p (c :: cs) acc = splitRuns p cs (c :: acc) := by
        conv_lhs => unfold splitRuns
        rw [h]; simp
      rw [e, splitRuns_eq_nil p cs (c :: acc)]
      simp [h]
    | true =>
      cases acc with
      | nil =>
        have e : splitRuns p (c :: cs) [] = splitRuns p cs [] := by
          conv_lhs => unfold splitRuns
          rw [h]; simp
        rw [e, splitRuns_eq_nil p cs []]
        simp [h]
      | cons a as =>
        have e : splitRuns p (c :: cs) (a :: as) =
            (a :: as).reverse :: splitRuns p cs [] := by
          conv_lhs => unfold splitRuns
          rw [h]; simp
        rw [e]
        simp [h]

theorem pySplit_eq_nil (s : String) :
    pySplit s = [] ↔ ∀ c ∈ s.data, isWsCh c = true := by
  unfold pySplit
  rw [List.map_eq_nil_iff, splitRuns_eq_nil]
  simp

theorem syllAux_pos :
    ∀ l : List Char, (∃ c ∈ l, isVowelCh c = true) → 1 ≤ syllAux l false
  | [], h => by simp at h
  | c :: cs, h => by
    cases hv : isVowelCh c with
    | true => simp [syllAux, hv]
    | false =>
      have e : syllAux (c :: cs) false = syllAux cs false := by
        simp [syllAux, hv]
      rw [e]
      obtain ⟨d, hd, hdv⟩ := h
      rcases List.mem_cons.mp hd with rfl | hd'
      · rw [hv] at hdv; cases hdv
      · exact syllAux_pos cs ⟨d, hd', hdv⟩

theorem syllAux_zero :
    ∀ (l : List Char) (b : Bool), (∀ c ∈ l, isVowelCh c = false) →
      syllAux l b = 0
  | [], _, _ => rfl
  | c :: cs, b, h => by
    have hc : isVowelCh c = false := h c (List.mem_cons_self c cs)
    have e : syllAux (c :: cs) b = syllAux cs false := by
      simp [syllAux, hc]
    rw [e]
    exact syllAux_zero cs false (fun d hd => h d (List.mem_cons_of_mem c hd))

theorem one_le_countSyllables (w : String) : 1 ≤ countSyllables w := by
  unfold countSyllables
  dsimp only
  by_cases he : (strLower w).data.getLast? = some (Char.ofNat 101)
  · have hmem : Char.ofNat 101 ∈ (strLower w).data := by
      obtain ⟨hne, hx⟩ :=
        List.mem_getLast?_eq_getLast (Option.mem_def.mpr he)
      rw [hx]
      exact List.getLast_mem hne
    have h1 : 1 ≤ syllAux (strLower w).data false :=
      syllAux_pos _ ⟨Char.ofNat 101, hmem, by decide⟩
    have h1' : (1:ℤ) ≤ (syllAux (strLower w).data false : ℤ) := by
      exact_mod_cast h1
    rw [if_pos he]
    split <;> omega
  · have h0 : (0:ℤ) ≤ (syllAux (strLower w).data false : ℤ) :=
      Int.ofNat_nonneg _
    rw [if_neg he]
    split <;> omega

theorem checkWordCount_bounds (std : QualityStandard) (wc : ℕ) :
    0 ≤ (checkWordCount std wc).1 ∧ (checkWordCount std wc).1 ≤ 20 := by
  unfold checkWordCount; split_ifs <;> norm_num

theorem checkSentenceLength_bounds (std : QualityStandard) (asl : ℚ) :
    0 ≤ (checkSentenceLength std asl).1 ∧ (checkSentenceLength std asl).1 ≤ 15 := by
  unfold checkSentenceLength; dsimp only; split_ifs <;> norm_num

theorem checkVocabDiversity_bounds (std : QualityStandard) (vd : ℚ) :
    0 ≤ (checkVocabDiversity std vd).1 ∧ (checkVocabDiversity std vd).1 ≤ 15 := by
  unfold checkVocabDiversity; split_ifs <;> norm_num

theorem checkParagraphCount_bounds (std : QualityStandard) (pc : ℕ) :
    0 ≤ (checkParagraphCount std pc).1 ∧ (checkParagraphCount std pc).1 ≤ 10 := by
  unfold checkParagraphCount; dsimp only; split_ifs <;> norm_num

theorem uniqueWords_pos (text : String) (h : 0 < countWords text) :
    0 < uniqueWords text := by
  have hcw : pySplit text ≠ [] := by
    intro he
    unfold countWords at h
    rw [he] at h
    simp at h
  obtain ⟨c, hc, hcf⟩ : ∃ c ∈ text.data, isWsCh c = false := by
    by_contra hall
    push_neg at hall
    refine hcw ((pySplit_eq_nil text).mpr (fun c hc => ?_))
    cases hx : isWsCh c
    · exact absurd hx (hall c hc)
    · rfl
  have hc' : lowerChar c ∈ (strLower text).data := by
    show lowerChar c ∈ text.data.map lowerChar
    exact List.mem_map_of_mem lowerChar hc
  have hw' : isWsCh (lowerChar c) = false := by
    rw [isWsCh_lowerChar]; exact hcf
  have hne : pySplit (strLower text) ≠ [] := by
    intro he
    have hall := (pySplit_eq_nil _).mp he (lowerChar c) hc'
    rw [hall] at hw'
    cases hw'
  unfold uniqueWords
  rw [List.length_pos, Ne, List.dedup_eq_nil, List.map_eq_nil_iff]
  exact hne

/-! ## Claim theorems -/

/-- C1, counterexample: on the input `"a ..."` the pure-punctuation token
`"..."` is stripped to the empty string by `_count_unique_words` and still
counts as a distinct "unique word", while `_count_words` discards it, so
`vocabulary_diversity = 2/1 = 2 > 1`: the claimed upper bound
`vocabulary_diversity ≤ 1` is false. -/
theorem vocabularyDiversity_gt_one :
    vocabularyDiversity "a ..." = 2 ∧ ¬ vocabularyDiversity "a ..." ≤ 1 := by
  have h1 : countWords "a ..." = 1 := by decide
  have h2 : uniqueWords "a ..." = 2 := by decide
  have hv : vocabularyDiversity "a ..." = 2 := by
    unfold vocabularyDiversity
    rw [h1, h2]
    norm_num
  exact ⟨hv, by rw [hv]; norm_num⟩

/-- C1, amended: for every input text, `vocabulary_diversity ≥ 0` and
`vocabulary_diversity = 0` iff `word_count = 0`; the claimed upper bound
`vocabulary_diversity ≤ 1` does not hold in general (see the
counterexample). -/
theorem vocabularyDiversity_nonneg_zero_iff (text : String) :
    0 ≤ vocabularyDiversity text ∧
    (vocabularyDiversity text = 0 ↔ countWords text = 0) := by
  unfold vocabularyDiversity
  by_cases h : 0 < countWords text
  · rw [if_pos h]
    refine ⟨by positivity, ?_, ?_⟩
    · intro hz
      exfalso
      have hu := uniqueWords_pos text h
      rcases div_eq_zero_iff.mp hz with hz' | hz'
      · rw [Nat.cast_eq_zero] at hz'; omega
      · rw [Nat.cast_eq_zero] at hz'; omega
    · intro hw; omega
  · rw [if_neg h]
    have h0 : countWords text = 0 := by omega
    simp [h0]

theorem vocabularyDiversity_nonneg_zero_iff_witness :
    vocabularyDiversity "" = 0 :=
  (vocabularyDiversity_nonneg_zero_iff "").2.mpr (by decide)

/-- C3: the syllable estimator returns 1 for `"the"`, 3 for `"banana"`,
1 for `"rate"` (silent-e rule), 1 for any word whose lowering has no
vowel from `{a,e,i,o,u,y}` (including the empty string), and at least 1
for every word. -/
theorem countSyllables_spec :
    countSyllables "the" = 1 ∧ countSyllables "banana" = 3 ∧
    countSyllables "rate" = 1 ∧
    (∀ w : String, (∀ c ∈ w.data, isVowelCh (lowerChar c) = false) →
      countSyllables w = 1) ∧
    (∀ w : String, 1 ≤ countSyllables w) := by
  refine ⟨by decide, by decide, by decide, ?_, one_le_countSyllables⟩
  intro w hw
  have hdata : (strLower w).data = w.data.map lowerChar := rfl
  have hz : syllAux (strLower w).data false = 0 := by
    apply syllAux_zero
    intro c hc
    rw [hdata] at hc
    obtain ⟨c₀, hc₀, rfl⟩ := List.mem_map.mp hc
    exact hw c₀ hc₀
  have he : (strLower w).data.getLast? ≠ some (Char.ofNat 101) := by
    intro he
    have hmem : Char.ofNat 101 ∈ (strLower w).data := by
      obtain ⟨hne, hx⟩ := List.mem_getLast?_eq_getLast (Option.mem_def.mpr he)
      rw [hx]
      exact List.getLast_mem hne
    rw [hdata] at hmem
    obtain ⟨c₀, hc₀, hce⟩ := List.mem_map.mp hmem
    have hv := hw c₀ hc₀
    rw [hce] at hv
    exact absurd hv (by decide)
  unfold countSyllables
  dsimp only
  rw [if_neg he, hz]
  norm_num

theorem countSyllables_spec_witness : countSyllables "thm" = 1 :=
  countSyllables_spec.2.2.2.1 "thm" (by decide)

/-- C4: every token contributes at least one syllable, and on the input
`"ab ..."` both Flesch formulas sum syllables over the full
`text.split()` token set (2 tokens, total 2 syllables — the pure
punctuation token `"..."` contributes 1) while the word count `W` only
counts the single alphanumeric token; the resulting values
`grade = 0.39·1 + 11.8·2 − 15.59 = 8.4` and
`ease = 206.835 − 1.015·1 − 84.6·2 = 36.62` show `T = 2`, not the
`T = 1` that summing over the filtered word list would give. -/
theorem fleschTokenSet_spec :
    (∀ w : String, 1 ≤ countSyllables w) ∧
    countWords "ab ..." = 1 ∧
    (pySplit "ab ...").length = 2 ∧
    totalSyllables "ab ..." = 2 ∧
    fleschKincaidGrade "ab ..." = 42/5 ∧
    fleschReadingEase "ab ..." = 1831/50 := by
  refine ⟨one_le_countSyllables, by decide, by decide, by decide, ?_, ?_⟩
  · unfold fleschKincaidGrade
    dsimp only
    rw [show countWords "ab ..." = 1 by decide,
        show countSentences "ab ..." = 1 by decide,
        show totalSyllables "ab ..." = 2 by decide]
    norm_num [max_def]
  · unfold fleschReadingEase
    dsimp only
    rw [show countWords "ab ..." = 1 by decide,
        show countSentences "ab ..." = 1 by decide,
        show totalSyllables "ab ..." = 2 by decide]
    norm_num [max_def, min_def]

/-- C5: the reading-level lookup maps grade 7 to the `middle_school`
band, 20 to `graduate`, −1 to no band (`"Unknown"`), and is total: every
grade lands in one of the five bands or `"Unknown"`. -/
theorem readingLevel_spec :
    getReadingLevel 7 = "Middle School" ∧
    getReadingLevel 20 = "Graduate" ∧
    getReadingLevel (-1) = "Unknown" ∧
    ∀ g : ℚ, getReadingLevel g ∈
      (["Elementary", "Middle School", "High School", "College",
        "Graduate", "Unknown"] : List String) := by
  refine ⟨by decide, by decide, by decide, ?_⟩
  intro g
  unfold getReadingLevel readingLevelStandards
  simp only [List.find?]
  cases h1 : gradeInBand g 0 (some 5) <;>
    cases h2 : gradeInBand g 6 (some 8) <;>
      cases h3 : gradeInBand g 9 (some 12) <;>
        cases h4 : gradeInBand g 13 (some 16) <;>
          cases h5 : gradeInBand g 17 none <;>
            simp_all <;> decide

/-- C6: on `"The chairman discussed mankind's progress"` the bias
detector reports the two male-coded gender issues `"mankind"` and
`"chairman"`, each of severity medium, and no issues in the racial, age,
political, ability or socioeconomic categories. -/
theorem detectBias_gender_example :
    Issue.mk "chairman" (some "male") none "medium" none ∈
      (detectBias claimSixText).genderBias.issues ∧
    Issue.mk "mankind" (some "male") none "medium" none ∈
      (detectBias claimSixText).genderBias.issues ∧
    2 ≤ (detectBias claimSixText).genderBias.issues.length ∧
    (detectBias claimSixText).racialBias.issues = [] ∧
    (detectBias claimSixText).ageBias.issues = [] ∧
    (detectBias claimSixText).politicalBias.issues = [] ∧
    (detectBias claimSixText).abilityBias.issues = [] ∧
    (detectBias claimSixText).socioeconomicBias.issues = [] := by
  exact ⟨by decide, by decide, by decide, by decide, by decide, by decide,
    by decide, by decide⟩

/-- C7: for any genre key outside the benchmark table, the standards
comparator returns the very same report it returns for `"essay"`: the
unrecognized key is a silent fallback, never an error. -/
theorem compareToStandards_genre_fallback (wc sc pc : ℕ) (asl vd : ℚ)
    (genre : String)
    (h : genre ∉ (["essay", "cover_letter", "resume", "letter"] : List String)) :
    compareToStandards wc sc pc asl vd genre =
      compareToStandards wc sc pc asl vd "essay" := by
  have h1 : genre ≠ "essay" := fun e => h (by rw [e]; simp)
  have h2 : genre ≠ "cover_letter" := fun e => h (by rw [e]; simp)
  have h3 : genre ≠ "resume" := fun e => h (by rw [e]; simp)
  have h4 : genre ≠ "letter" := fun e => h (by rw [e]; simp)
  have hl : lookupStandards genre = essayStandard := by
    unfold lookupStandards
    rw [if_neg h1, if_neg h2, if_neg h3, if_neg h4]
  unfold compareToStandards
  rw [hl]
  rfl

theorem compareToStandards_genre_fallback_witness :
    compareToStandards 100 5 4 18 (6/10) "poem" =
      compareToStandards 100 5 4 18 (6/10) "essay" :=
  compareToStandards_genre_fallback 100 5 4 18 (6/10) "poem" (by decide)

/-- C8: an essay of 100 words (below the 300-word minimum) always takes
the −20 word-count penalty, its feedback contains the too-short message
carrying the 300-word minimum, and its score is at most 80. -/
theorem essay_short_document_penalty (sc pc : ℕ) (asl vd : ℚ) :
    (compareToStandards 100 sc pc asl vd "essay").score ≤ 80 ∧
    FeedbackItem.tooShort 100 300 ∈
      (compareToStandards 100 sc pc asl vd "essay").feedback := by
  have hw : checkWordCount (lookupStandards "essay") 100 =
      (20, [FeedbackItem.tooShort 100 300], []) := by decide
  unfold compareToStandards
  dsimp only
  rw [hw]
  constructor
  · have hs := (checkSentenceLength_bounds (lookupStandards "essay") asl).1
    have hv := (checkVocabDiversity_bounds (lookupStandards "essay") vd).1
    have hp := (checkParagraphCount_bounds (lookupStandards "essay") pc).1
    dsimp only
    exact max_le (by norm_num) (by omega)
  · simp

/-- C9: `overall_bias_score` always lies in `[0, 100]`, the
`max(0, ·)` floor on `inclusivity_score` never binds, so
`inclusivity_score = 100 − overall_bias_score` exactly; empty or
whitespace-only text scores 0 with inclusivity 100. -/
theorem detectBias_score_relation (text : String) :
    0 ≤ (detectBias text).overallBiasScore ∧
    (detectBias text).overallBiasScore ≤ 100 ∧
    (detectBias text).inclusivityScore =
      100 - (detectBias text).overallBiasScore ∧
    ((∀ c ∈ text.data, isWsCh c = true) →
      (detectBias text).overallBiasScore = 0 ∧
      (detectBias text).inclusivityScore = 100) := by
  have hob : (detectBias text).overallBiasScore = overallBiasScore text := rfl
  have hic : (detectBias text).inclusivityScore = inclusivityScore text := rfl
  rw [hob, hic]
  have h0 : 0 ≤ overallBiasScore text := by
    unfold overallBiasScore
    split
    · exact le_min (by norm_num) (by positivity)
    · exact le_refl 0
  have h100 : overallBiasScore text ≤ 100 := by
    unfold overallBiasScore
    split
    · exact min_le_left _ _
    · norm_num
  refine ⟨h0, h100, ?_, ?_⟩
  · unfold inclusivityScore
    exact max_eq_right (by linarith)
  · intro hws
    have hnil : pySplit text = [] := (pySplit_eq_nil text).mpr hws
    have hz : overallBiasScore text = 0 := by
      unfold overallBiasScore
      rw [hnil]
      norm_num
    refine ⟨hz, ?_⟩
    unfold inclusivityScore
    rw [hz]
    norm_num

theorem detectBias_score_relation_witness :
    (detectBias " ").overallBiasScore = 0 ∧
    (detectBias " ").inclusivityScore = 100 :=
  (detectBias_score_relation " ").2.2.2 (by decide)

/-- C10: for every input, the comparator's score lies in `[40, 100]`:
the four penalty groups subtract at most 20 + 15 + 15 + 10 = 60 from the
starting 100, so the final `max(0, ·)` floor never binds and the score
cannot reach 0. -/
theorem compareToStandards_score_range (wc sc pc : ℕ) (asl vd : ℚ)
    (genre : String) :
    40 ≤ (compareToStandards wc sc pc asl vd genre).score ∧
    (compareToStandards wc sc pc asl vd genre).score ≤ 100 := by
  unfold compareToStandards
  dsimp only
  have hw := checkWordCount_bounds (lookupStandards genre) wc
  have hs := checkSentenceLength_bounds (lookupStandards genre) asl
  have hv := checkVocabDiversity_bounds (lookupStandards genre) vd
  have hp := checkParagraphCount_bounds (lookupStandards genre) pc
  constructor
  · exact le_max_of_le_right (by omega)
  · exact max_le (by norm_num) (by omega)

/-- C2, counterexample: the text
`"utilize endeavor facilitate implement"` has exactly 4 formal-word
hits, which exceeds the threshold of 3, and the code adds
`4 × 5 = 20` to the score (this is also the whole `ai_probability`
here) — not the `5 × (4 − 3) = 5` the claim predicts. -/
theorem formality_scoring_counterexample :
    formalWordCount fourFormalText = 4 ∧
    formalityScore fourFormalText = 20 ∧
    aiProbability fourFormalText = 20 ∧
    formalityScore fourFormalText ≠
      5 * (formalWordCount fourFormalText - 3) := by
  have h4 : formalWordCount fourFormalText = 4 := by decide
  have hf : formalityScore fourFormalText = 20 := by decide
  have hav : avgSentenceLenScore fourFormalText = 0 := by
    unfold avgSentenceLenScore
    rw [show (aiSentences fourFormalText).length = 1 by decide,
        show sentenceTokenSum fourFormalText = 4 by decide]
    norm_num
  have hai : aiProbability fourFormalText = 20 := by
    unfold aiProbability aiScore
    rw [hav, hf,
        show aiPhraseCount fourFormalText = 0 by decide,
        show symbolScore fourFormalText = 0 by decide,
        show contractionScore fourFormalText = 0 by decide,
        show repetitionScore fourFormalText = 0 by decide]
    norm_num
  exact ⟨h4, hf, hai, by rw [hf, h4]; norm_num⟩

/-- C2, amended: when the number of formal-vocabulary hits exceeds the
threshold of 3, the formality contribution to the AI-likelihood score is
`5 × hits` counting ALL hits (not only the hits over the threshold);
when hits ≤ 3 the contribution is 0. -/
theorem formality_scoring_amended (text : String) :
    (3 < formalWordCount text →
      formalityScore text = 5 * formalWordCount text) ∧
    (formalWordCount text ≤ 3 → formalityScore text = 0) ∧
    aiScore text = 15 * aiPhraseCount text + symbolScore text +
      formalityScore text + contractionScore text +
      avgSentenceLenScore text + repetitionScore text := by
  refine ⟨?_, ?_, rfl⟩
  · intro h
    unfold formalityScore
    rw [if_pos h]
  · intro h
    unfold formalityScore
    rw [if_neg (by omega)]

theorem formality_scoring_amended_witness :
    formalityScore fourFormalText = 5 * formalWordCount fourFormalText :=
  (formality_scoring_amended fourFormalText).1 (by decide)

end Rhejos
